import Mathlib

/-!
Verification of the Mirror API (`src/app.py`): a Flask HTTP echo service with
five routes (`/`, `/info`, `/mirror`, `/mirror/detail`, `/health`) and a
structured 404 handler.  We shallow-embed the JSON values the handlers build,
the request context each handler reads, the five route handlers, the 404
handler, and the Flask route dispatch (exact-path match, per-route method sets,
automatic `HEAD`/`OPTIONS`, 405 for a known path with a disallowed method).
-/

namespace MirrorApi

/-- JSON values, the codomain of `jsonify` and of the JSON body parser. -/
inductive Json where
  | null : Json
  | bool (b : Bool) : Json
  | num (n : Int) : Json
  | str (s : String) : Json
  | arr (xs : List Json) : Json
  | obj (kvs : List (String × Json)) : Json
deriving Repr

/-- Python truthiness of a value obtained from a JSON parse
(`if json_data:` and `json_data or {}` in `app.py`). -/
def Json.truthy : Json → Bool
  | .null => false
  | .bool b => b
  | .num n => n != 0
  | .str s => s != ""
  | .arr xs => !xs.isEmpty
  | .obj kvs => !kvs.isEmpty

/-- Field lookup in a JSON object (`mirror_data['field']`); `none` when the
value is not an object or the key is absent. -/
def Json.get? : Json → String → Option Json
  | .obj kvs, k => (kvs.find? (fun kv => kv.1 == k)).map (fun kv => kv.2)
  | _, _ => none

mutual

/-- Python `str()` of a value obtained from a JSON parse, as used by
`str(json_data)` in `mirror_simple` (dict/list repr with single-quoted
strings; string escaping is not modelled since no claim depends on it). -/
def Json.pyStr : Json → String
  | .null => "None"
  | .bool true => "True"
  | .bool false => "False"
  | .num n => toString n
  | .str s => "\x27" ++ s ++ "\x27"
  | .arr xs => "[" ++ Json.pyStrList xs ++ "]"
  | .obj kvs => "\x7b" ++ Json.pyStrObj kvs ++ "\x7d"

/-- Comma-separated `str()` rendering of the elements of a Python list. -/
def Json.pyStrList : List Json → String
  | [] => ""
  | [x] => Json.pyStr x
  | x :: xs => Json.pyStr x ++ ", " ++ Json.pyStrList xs

/-- Comma-separated `str()` rendering of the items of a Python dict. -/
def Json.pyStrObj : List (String × Json) → String
  | [] => ""
  | [kv] => "\x27" ++ kv.1 ++ "\x27: " ++ Json.pyStr kv.2
  | kv :: kvs => "\x27" ++ kv.1 ++ "\x27: " ++ Json.pyStr kv.2 ++ ", " ++ Json.pyStrObj kvs

end

/-- The immutable request context a Flask handler reads (`flask.request`).
The body's JSON parse attempt is carried as a result value
(`jsonParse`), the fallible-parse model the framework's `get_json` wraps;
`bodyText` is the body decoded as text (`get_data(as_text=True)`) and
`bodyBytes` the raw bytes (`get_data()`). -/
structure Request where
  method : String
  url : String
  path : String
  fullPath : String
  baseUrl : String
  host : String
  hostUrl : String
  headers : List (String × String)
  queryParams : List (String × String)
  form : List (String × String)
  cookies : List (String × String)
  bodyBytes : List Nat
  bodyText : String
  jsonParse : Except String Json
  remoteAddr : String
  userAgentString : String
  remotePort : Option String
  serverName : Option String
  serverPort : Option String
  scheme : String
deriving Repr

/-- ASCII lowercasing of a string, character by character. -/
def lowerStr (s : String) : String :=
  ⟨s.data.map Char.toLower⟩

/-- Case-insensitive header lookup, `request.headers.get(name)`. -/
def headerGet (req : Request) (name : String) : Option String :=
  (req.headers.find? (fun kv => lowerStr kv.1 == lowerStr name)).map (fun kv => kv.2)

/-- ASCII whitespace, as stripped by `str.strip()`. -/
def isSpaceChar (c : Char) : Bool :=
  c == ' ' || c == '\t' || c == '\n' || c == '\r'

/-- Strip whitespace from both ends of a character list. -/
def trimChars (l : List Char) : List Char :=
  ((l.dropWhile isSpaceChar).reverse.dropWhile isSpaceChar).reverse

/-- The mimetype of a Content-Type value: the part before the first `;`,
stripped and lowercased (the werkzeug `request.mimetype`). -/
def mimetypeOf (ct : String) : String :=
  ⟨(trimChars (ct.data.takeWhile (fun c => c != ';'))).map Char.toLower⟩

/-- The test `request.is_json`: the mimetype is `application/json` or an
`application/*+json` type. -/
def isJson (req : Request) : Bool :=
  match headerGet req "Content-Type" with
  | none => false
  | some ct =>
    let mt := mimetypeOf ct
    mt == "application/json" ||
      ("application/".data.isPrefixOf mt.data && "+json".data.isSuffixOf mt.data)

/-- The call `request.get_json(silent=True)`: `none` unless the content type
indicates JSON and the body parses. -/
def getJsonSilent (req : Request) : Option Json :=
  if isJson req then
    match req.jsonParse with
    | .ok v => some v
    | .error _ => none
  else none

/-- Python truthiness of `headers.get(...)`: `None` and the empty string are
falsy (the `if v` filter on line 83 of `app.py`). -/
def optStrTruthy : Option String → Bool
  | none => false
  | some s => s != ""

/-- The value a handler produces: a body and an HTTP status code. -/
inductive HttpResponse where
  | json (body : Json) (status : Nat) : HttpResponse
  | html (body : String) (status : Nat) : HttpResponse
deriving Repr

/-- The status code of a response. -/
def HttpResponse.status : HttpResponse → Nat
  | .json _ s => s
  | .html _ s => s

/-- Lift a string dict (`dict(request.args)` etc.) to a JSON object. -/
def strDict (kvs : List (String × String)) : Json :=
  .obj (kvs.map (fun kv => (kv.1, .str kv.2)))

/-- Jsonify an optional string (`request.environ.get(...)`, `None` → null). -/
def optStrJson : Option String → Json
  | none => .null
  | some s => .str s

/-- Modelled from the spec: the template file `templates/index.html` is not in
`src/`.  Section 4.2 of the spec says the root handler renders a static page
whose only dynamic datum is the current timestamp; we model the rendered page
as the static template text with the timestamp substituted. -/
def render_index (ts : String) : String :=
  "index.html[" ++ ts ++ "]"

/-- Handler of `GET /` (`api_documentation`, `app.py` lines 13-19): renders
the HTML template with the current timestamp. -/
def api_documentation (ts : String) : HttpResponse := .html (render_index ts) 200

/-- Handler of `GET /info` (`api_info`, `app.py` lines 23-41). -/
def api_info (current_time : String) : Json × Nat :=
  (.obj
    [("api", .str "🔍 Mirror API - 请求镜子"),
     ("version", .str "1.0.0"),
     ("description", .str "一个用于调试和测试的API，可以返回 incoming 请求的详细信息"),
     ("timestamp", .str current_time),
     ("endpoints", .obj
       [("/mirror", .str "简洁版镜像端点"),
        ("/mirror/detail", .str "详细版镜像端点"),
        ("/health", .str "健康检查"),
        ("/info", .str "API信息"),
        ("/", .str "API文档页面")]),
     ("message", .str "访问根路径 / 查看美观的文档页面")],
   200)

/-- Handler of `/mirror` (`mirror_simple`, `app.py` lines 46-84).  The wall
clock is an input (`current_time`); the request context is `req`. -/
def mirror_simple (req : Request) (current_time : String) : Json × Nat :=
  let headersRaw : List (String × Option String) :=
    [("content_type", headerGet req "Content-Type"),
     ("user_agent", headerGet req "User-Agent"),
     ("authorization", headerGet req "Authorization"),
     ("accept", headerGet req "Accept"),
     ("host", headerGet req "Host")]
  let data_summary : List (String × Json) :=
    [("has_json", .bool (isJson req)),
     ("has_form_data", .bool (!req.form.isEmpty)),
     ("has_query_params", .bool (!req.queryParams.isEmpty)),
     ("body_length", .num req.bodyText.length)]
  -- lines 79-82: json_sample is added to data_summary when the parsed body is truthy
  let data_summary : List (String × Json) :=
    if isJson req then
      match getJsonSilent req with
      | some json_data =>
        if json_data.truthy then
          data_summary ++
            [("json_sample",
              .str (if (Json.pyStr json_data).length > 100
                    then (Json.pyStr json_data).take 100 ++ "..."
                    else Json.pyStr json_data))]
        else data_summary
      | none => data_summary
    else data_summary
  -- line 83: keep only the header entries whose value is truthy
  let headersFiltered : List (String × Json) :=
    (headersRaw.filter (fun kv => optStrTruthy kv.2)).map
      (fun kv => (kv.1, .str (kv.2.getD "")))
  (.obj
    [("status", .str "success"),
     ("timestamp", .str current_time),
     ("endpoint", .str "/mirror"),
     ("description", .str "简洁版请求信息"),
     ("request", .obj
       [("method", .str req.method),
        ("url", .str req.url),
        ("path", .str req.path),
        ("query_params", strDict req.queryParams)]),
     ("headers", .obj headersFiltered),
     ("data_summary", .obj data_summary),
     ("client", .obj [("ip_address", .str req.remoteAddr)])],
   200)

/-- Handler of `/mirror/detail` (`mirror_detail`, `app.py` lines 89-138). -/
def mirror_detail (req : Request) (current_time : String) : Json × Nat :=
  let base : List (String × Json) :=
    [("status", .str "success"),
     ("timestamp", .str current_time),
     ("endpoint", .str "/mirror/detail"),
     ("description", .str "详细版请求信息"),
     ("request", .obj
       [("method", .str req.method),
        ("url", .str req.url),
        ("path", .str req.path),
        ("full_path", .str req.fullPath),
        ("base_url", .str req.baseUrl),
        ("host", .str req.host),
        ("host_url", .str req.hostUrl)]),
     ("headers", strDict req.headers),
     ("query_params", strDict req.queryParams),
     ("form_data", strDict req.form),
     -- line 111: request.get_json(silent=True) or \x7b\x7d
     ("json_data",
       match getJsonSilent req with
       | some v => if v.truthy then v else .obj []
       | none => .obj []),
     ("raw_body", .str req.bodyText),
     ("cookies", strDict req.cookies),
     ("client", .obj
       [("ip_address", .str req.remoteAddr),
        ("user_agent", .str req.userAgentString),
        ("remote_port", optStrJson req.remotePort)]),
     ("server", .obj
       [("server_name", optStrJson req.serverName),
        ("server_port", optStrJson req.serverPort),
        ("request_scheme", .str req.scheme)]),
     ("statistics", .obj
       [("headers_count", .num req.headers.length),
        ("query_params_count", .num req.queryParams.length),
        ("form_fields_count", .num req.form.length),
        ("cookies_count", .num req.cookies.length),
        ("body_size_bytes", .num req.bodyBytes.length),
        ("body_size_chars", .num req.bodyText.length)])]
  -- lines 133-137: try get_json() under is_json; a raised parse error is caught
  -- and recorded as json_error instead
  let withJson : List (String × Json) :=
    if isJson req then
      match req.jsonParse with
      | .ok v => base ++ [("json_parsed", v)]
      | .error e => base ++ [("json_error", .str ("Invalid JSON data: " ++ e))]
    else base
  (.obj withJson, 200)

/-- Handler of `GET /health` (`health_check`, `app.py` lines 143-158). -/
def health_check (current_time : String) : Json × Nat :=
  (.obj
    [("status", .str "healthy"),
     ("message", .str "Mirror API is running normally"),
     ("timestamp", .str current_time),
     ("endpoints", .obj
       [("mirror_simple", .str "/mirror - 简洁版请求信息"),
        ("mirror_detail", .str "/mirror/detail - 详细版请求信息"),
        ("health", .str "/health - 健康检查"),
        ("info", .str "/info - API信息"),
        ("root", .str "/ - API文档页面")])],
   200)

/-- The 404 error handler (`not_found`, `app.py` lines 163-180). -/
def not_found (current_time : String) : Json × Nat :=
  (.obj
    [("status", .str "error"),
     ("error", .str "Not found"),
     ("message", .str "请求的端点不存在，请检查URL是否正确。"),
     ("timestamp", .str current_time),
     ("available_endpoints", .arr
       [.obj [("path", .str "/"), ("description", .str "API文档页面")],
        .obj [("path", .str "/mirror"), ("description", .str "简洁版镜像端点")],
        .obj [("path", .str "/mirror/detail"), ("description", .str "详细版镜像端点")],
        .obj [("path", .str "/health"), ("description", .str "健康检查")],
        .obj [("path", .str "/info"), ("description", .str "API信息")]]),
     ("suggestion", .str "请访问根路径 / 查看完整的API文档")],
   404)

/-- A registered route: path and the method list given to `@app.route`. -/
structure Route where
  path : String
  methods : List String
deriving Repr

/-- The route table of `app.py`, in registration order. -/
def routes : List Route :=
  [⟨"/", ["GET"]⟩,
   ⟨"/info", ["GET"]⟩,
   ⟨"/mirror", ["GET", "POST", "PUT", "DELETE", "PATCH", "OPTIONS", "HEAD"]⟩,
   ⟨"/mirror/detail", ["GET", "POST", "PUT", "DELETE", "PATCH", "OPTIONS", "HEAD"]⟩,
   ⟨"/health", ["GET"]⟩]

/-- Werkzeug completes a rule by adding `HEAD` when `GET` is allowed and
always adding `OPTIONS`. -/
def ruleMethods (ms : List String) : List String :=
  let ms := if ms.contains "GET" && !ms.contains "HEAD" then ms ++ ["HEAD"] else ms
  if ms.contains "OPTIONS" then ms else ms ++ ["OPTIONS"]

/-- Flask answers `OPTIONS` itself (empty 200) exactly when the view did not
list `OPTIONS` in its methods. -/
def automaticOptions (ms : List String) : Bool :=
  !ms.contains "OPTIONS"

/-- The default werkzeug 405 error page (no 405 error handler is registered
in `app.py`, only a 404 one). -/
def method_not_allowed_page : String :=
  "<!doctype html>\n<html lang=en>\n<title>405 Method Not Allowed</title>\n<h1>Method Not Allowed</h1>\n<p>The method is not allowed for the requested URL.</p>\n"

/-- Lift the pair a JSON view returns into a response. -/
def jsonify : Json × Nat → HttpResponse
  | (b, s) => .json b s

/-- Run the view function registered for a path. -/
def runHandler (path : String) (req : Request) (t : String) : HttpResponse :=
  if path == "/" then api_documentation t
  else if path == "/info" then jsonify (api_info t)
  else if path == "/mirror" then jsonify (mirror_simple req t)
  else if path == "/mirror/detail" then jsonify (mirror_detail req t)
  else if path == "/health" then jsonify (health_check t)
  else jsonify (not_found t)

/-- Flask dispatch: exact path match against the route table; unknown path
raises `NotFound`, handled by the registered 404 handler; a known path with a
method outside the completed method set raises `MethodNotAllowed`, which has
no registered handler and falls back to the default 405 page; an automatic
`OPTIONS` is answered by the framework with an empty 200. -/
def dispatch (req : Request) (t : String) : HttpResponse :=
  match routes.find? (fun r => r.path == req.path) with
  | none => jsonify (not_found t)
  | some r =>
    if (ruleMethods r.methods).contains req.method then
      if req.method == "OPTIONS" && automaticOptions r.methods then
        .html "" 200
      else runHandler r.path req t
    else .html method_not_allowed_page 405

/-- Remove one key from a JSON object (used to compare response bodies up to
their timestamp field). -/
def Json.dropField (j : Json) (k : String) : Json :=
  match j with
  | .obj kvs => .obj (kvs.filter (fun kv => kv.1 != k))
  | j => j

/-- The five response keys of the simple-mirror headers object, each paired
with the request header it is read from (`app.py` lines 62-68). -/
def simpleHeaderFields : List (String × String) :=
  [("content_type", "Content-Type"),
   ("user_agent", "User-Agent"),
   ("authorization", "Authorization"),
   ("accept", "Accept"),
   ("host", "Host")]

/-- The method list shared by the two mirror routes. -/
def mirrorMethods : List String :=
  ["GET", "POST", "PUT", "DELETE", "PATCH", "OPTIONS", "HEAD"]

/-- A plain GET request with no body, used as the base of concrete test
requests. -/
def baseReq : Request where
  method := "GET"
  url := "http://localhost:5000/"
  path := "/"
  fullPath := "/?"
  baseUrl := "http://localhost:5000/"
  host := "localhost:5000"
  hostUrl := "http://localhost:5000/"
  headers := [("Host", "localhost:5000")]
  queryParams := []
  form := []
  cookies := []
  bodyBytes := []
  bodyText := ""
  jsonParse := Except.error "400 Bad Request: Failed to decode JSON object"
  remoteAddr := "127.0.0.1"
  userAgentString := "curl/8.0"
  remotePort := some "54321"
  serverName := some "0.0.0.0"
  serverPort := some "5000"
  scheme := "http"

/-- A GET request to `/mirror`. -/
def mirrorGetReq : Request :=
  { baseReq with
      path := "/mirror"
      url := "http://localhost:5000/mirror" }

/-- A POST to `/mirror/detail` with a JSON content type and an unparseable
body. -/
def badJsonDetailReq : Request :=
  { baseReq with
      method := "POST"
      path := "/mirror/detail"
      url := "http://localhost:5000/mirror/detail"
      headers := [("Host", "localhost:5000"), ("Content-Type", "application/json")]
      bodyBytes := [123, 111]
      bodyText := "\x7bo"
      jsonParse := Except.error "400 Bad Request: Failed to decode JSON object" }

/-- A POST to `/mirror` with a JSON content type and a small parseable JSON
body. -/
def jsonMirrorReq : Request :=
  { baseReq with
      method := "POST"
      path := "/mirror"
      url := "http://localhost:5000/mirror"
      headers := [("Host", "localhost:5000"), ("Content-Type", "application/json")]
      bodyBytes := [123, 34, 97, 34, 58, 32, 49, 125]
      bodyText := "\x7b\x22a\x22: 1\x7d"
      jsonParse := Except.ok (Json.obj [("a", Json.num 1)]) }

/-- A POST to `/health`, whose route allows only GET (plus the automatic
HEAD and OPTIONS). -/
def postHealthReq : Request :=
  { baseReq with
      method := "POST"
      path := "/health"
      url := "http://localhost:5000/health" }

/-- A GET request to an unknown path. -/
def unknownPathReq : Request :=
  { baseReq with
      path := "/does-not-exist"
      url := "http://localhost:5000/does-not-exist" }

/-- A GET request to `/health` carrying a query string and a cookie. -/
def healthNoisyReq : Request :=
  { baseReq with
      path := "/health"
      url := "http://localhost:5000/health?x=1"
      queryParams := [("x", "1")]
      cookies := [("session", "abc")]
      headers := [("Host", "localhost:5000"), ("Accept", "text/html")] }

/-- A GET request to `/health` with no extras. -/
def healthPlainReq : Request :=
  { baseReq with
      path := "/health"
      url := "http://localhost:5000/health" }

/-- A POST to `/mirror/detail` whose body parses to the falsy JSON value
`[]`. -/
def falsyJsonDetailReq : Request :=
  { baseReq with
      method := "POST"
      path := "/mirror/detail"
      url := "http://localhost:5000/mirror/detail"
      headers := [("Host", "localhost:5000"), ("Content-Type", "application/json")]
      bodyBytes := [91, 93]
      bodyText := "[]"
      jsonParse := Except.ok (Json.arr []) }

/-- C1: For every supported method (GET, POST, PUT, DELETE, PATCH, OPTIONS,
HEAD) and every request to the `/mirror` path, dispatch runs `mirror_simple`,
which returns HTTP status 200 and a JSON body whose status field equals the
string "success". -/
theorem C1_mirror_simple_success (req : Request) (t : String)
    (hpath : req.path = "/mirror") (hm : req.method ∈ mirrorMethods) :
    ∃ body : Json, dispatch req t = .json body 200 ∧
      body.get? "status" = some (.str "success") := by
  refine ⟨(mirror_simple req t).1, ?_, rfl⟩
  simp only [mirrorMethods, List.mem_cons, List.not_mem_nil, or_false] at hm
  rcases hm with h|h|h|h|h|h|h <;>
    simp [dispatch, routes, hpath, h, ruleMethods, automaticOptions, runHandler,
      jsonify] <;>
    rfl

/-- Witness for C1: a concrete GET request to `/mirror`. -/
theorem C1_witness :
    ∃ body : Json, dispatch mirrorGetReq "2024-01-01T00:00:00" = .json body 200 ∧
      body.get? "status" = some (.str "success") :=
  C1_mirror_simple_success mirrorGetReq "2024-01-01T00:00:00" rfl (by decide)

/-- C2: For every request to `/mirror/detail` whose content type indicates
JSON but whose body fails to parse as JSON, `mirror_detail` still returns
status 200 and its body carries a non-empty string field json_error; the
parse failure never escapes as a transport-level error. -/
theorem C2_mirror_detail_json_error (req : Request) (t : String) (e : String)
    (hj : isJson req = true) (hp : req.jsonParse = Except.error e) :
    (mirror_detail req t).2 = 200 ∧
      ∃ s : String, (mirror_detail req t).1.get? "json_error" = some (.str s) ∧
        s ≠ "" := by
  refine ⟨rfl, "Invalid JSON data: " ++ e, ?_, ?_⟩
  · simp [mirror_detail, hj, hp, Json.get?]
  · intro hcon
    have hlen : ("Invalid JSON data: " ++ e).length = "".length := by rw [hcon]
    rw [String.length_append] at hlen
    have h19 : ("Invalid JSON data: ").length = 19 := rfl
    have h0 : ("" : String).length = 0 := rfl
    omega

/-- Witness for C2: a concrete POST to `/mirror/detail` with a JSON content
type and an unparseable body. -/
theorem C2_witness :
    (mirror_detail badJsonDetailReq "2024-01-01T00:00:00").2 = 200 ∧
      ∃ s : String,
        (mirror_detail badJsonDetailReq "2024-01-01T00:00:00").1.get? "json_error"
          = some (.str s) ∧ s ≠ "" :=
  C2_mirror_detail_json_error badJsonDetailReq "2024-01-01T00:00:00"
    "400 Bad Request: Failed to decode JSON object" (by rfl) (by rfl)

/-- C3: Whenever `mirror_simple` produces a json_sample field (the parsed JSON
body exists and is truthy), the sample is the stringified parsed body
truncated to its first 100 characters plus "..." when that string is longer
than 100 characters, and the stringified body verbatim otherwise. -/
theorem C3_json_sample_truncation (req : Request) (t : String) (jd : Json)
    (hj : getJsonSilent req = some jd) (ht : jd.truthy = true) :
    ∃ s : String,
      ((mirror_simple req t).1.get? "data_summary").bind (fun d => d.get? "json_sample")
        = some (.str s) ∧
      ((Json.pyStr jd).length > 100 → s = (Json.pyStr jd).take 100 ++ "...") ∧
      ((Json.pyStr jd).length ≤ 100 → s = Json.pyStr jd) := by
  have hij : isJson req = true := by
    by_contra hfalse
    simp only [Bool.not_eq_true] at hfalse
    rw [getJsonSilent, hfalse] at hj
    simp at hj
  refine ⟨if (Json.pyStr jd).length > 100 then (Json.pyStr jd).take 100 ++ "..."
          else Json.pyStr jd, ?_, ?_, ?_⟩
  · simp [mirror_simple, hij, hj, ht, Json.get?]
  · intro hgt; simp [hgt]
  · intro hle
    have hngt : ¬ (Json.pyStr jd).length > 100 := by omega
    simp [hngt]

/-- Witness for C3: a concrete POST to `/mirror` whose JSON body stringifies
to 8 characters. -/
theorem C3_witness :
    ∃ s : String,
      ((mirror_simple jsonMirrorReq "T").1.get? "data_summary").bind
          (fun d => d.get? "json_sample") = some (.str s) ∧
      ((Json.pyStr (Json.obj [("a", Json.num 1)])).length > 100 →
        s = (Json.pyStr (Json.obj [("a", Json.num 1)])).take 100 ++ "...") ∧
      ((Json.pyStr (Json.obj [("a", Json.num 1)])).length ≤ 100 →
        s = Json.pyStr (Json.obj [("a", Json.num 1)])) :=
  C3_json_sample_truncation jsonMirrorReq "T" (Json.obj [("a", Json.num 1)]) (by rfl) (by rfl)

/-- C4: For every request to `/mirror` and every header among content-type,
user-agent, authorization, accept and host that is absent from the request or
carries an empty value, the corresponding key is entirely absent from the
headers object of the `mirror_simple` response. -/
theorem C4_absent_headers_dropped (req : Request) (t : String) (k n : String)
    (hk : (k, n) ∈ simpleHeaderFields)
    (h : headerGet req n = none ∨ headerGet req n = some "") :
    ∃ hdrs : List (String × Json),
      (mirror_simple req t).1.get? "headers" = some (.obj hdrs) ∧
      hdrs.find? (fun kv => kv.1 == k) = none := by
  have htr : optStrTruthy (headerGet req n) = false := by
    rcases h with h|h <;> simp [h, optStrTruthy]
  refine ⟨_, rfl, ?_⟩
  rw [List.find?_eq_none]
  intro x hx
  simp only [List.mem_map, List.mem_filter] at hx
  obtain ⟨a, ⟨hal, hap⟩, rfl⟩ := hx
  simp only [simpleHeaderFields, List.mem_cons, List.not_mem_nil, or_false,
    Prod.mk.injEq] at hk
  simp only [List.mem_cons, List.not_mem_nil, or_false] at hal
  rcases hk with ⟨rfl, rfl⟩|⟨rfl, rfl⟩|⟨rfl, rfl⟩|⟨rfl, rfl⟩|⟨rfl, rfl⟩ <;>
    rcases hal with rfl|rfl|rfl|rfl|rfl <;>
    simp_all

/-- Witness for C4: the base request has no Authorization header, and
authorization is absent from the simple-mirror headers object. -/
theorem C4_witness :
    ∃ hdrs : List (String × Json),
      (mirror_simple baseReq "T").1.get? "headers" = some (.obj hdrs) ∧
      hdrs.find? (fun kv => kv.1 == "authorization") = none :=
  C4_absent_headers_dropped baseReq "T" "authorization" "Authorization"
    (by decide) (Or.inl (by rfl))

/-- C5 counterexample: a POST to `/health` (a known path whose route allows
only GET) is answered with the default 405 method-not-allowed page, not with
status 404 and the structured not-found body as the claim states. -/
theorem C5_counterexample :
    dispatch postHealthReq "2024-01-01T00:00:00"
        = .html method_not_allowed_page 405 ∧
      (dispatch postHealthReq "2024-01-01T00:00:00").status ≠ 404 :=
  ⟨rfl, by decide⟩

/-- C5 amended: for every request whose path matches a known route but whose
method is outside the completed method set of that route (the registered
methods plus the automatic HEAD and OPTIONS), the server responds with status
405 and the default method-not-allowed page, because only a 404 handler is
registered. -/
theorem C5_method_not_allowed_405 (req : Request) (t : String) (r : Route)
    (hr : routes.find? (fun x => x.path == req.path) = some r)
    (hm : req.method ∉ ruleMethods r.methods) :
    dispatch req t = .html method_not_allowed_page 405 := by
  unfold dispatch
  rw [hr]
  have hc : ((ruleMethods r.methods).contains req.method) = false := by
    simpa using hm
  simp only [hc]
  simp

/-- Witness for the amended C5: a concrete POST to `/health`. -/
theorem C5_witness :
    dispatch postHealthReq "T" = .html method_not_allowed_page 405 :=
  C5_method_not_allowed_405 postHealthReq "T" ⟨"/health", ["GET"]⟩ rfl (by decide)

/-- C6: For every request whose path is none of the five known routes, the
response has status 404 and its JSON body carries the error label, a message,
the timestamp, a suggestion pointing to the documentation route, and the
enumeration of all five known endpoints with descriptions. -/
theorem C6_not_found_body (req : Request) (t : String)
    (hp : req.path ∉ ["/", "/info", "/mirror", "/mirror/detail", "/health"]) :
    ∃ body : Json, dispatch req t = .json body 404 ∧
      body.get? "error" = some (.str "Not found") ∧
      body.get? "message" = some (.str "请求的端点不存在，请检查URL是否正确。") ∧
      body.get? "timestamp" = some (.str t) ∧
      body.get? "suggestion" = some (.str "请访问根路径 / 查看完整的API文档") ∧
      body.get? "available_endpoints" = some (.arr
        [.obj [("path", .str "/"), ("description", .str "API文档页面")],
         .obj [("path", .str "/mirror"), ("description", .str "简洁版镜像端点")],
         .obj [("path", .str "/mirror/detail"), ("description", .str "详细版镜像端点")],
         .obj [("path", .str "/health"), ("description", .str "健康检查")],
         .obj [("path", .str "/info"), ("description", .str "API信息")]]) := by
  have hfind : routes.find? (fun r => r.path == req.path) = none := by
    rw [List.find?_eq_none]
    intro r hr
    simp only [List.mem_cons, List.not_mem_nil, or_false] at hp
    push_neg at hp
    obtain ⟨hp1, hp2, hp3, hp4, hp5⟩ := hp
    simp only [routes, List.mem_cons, List.not_mem_nil, or_false] at hr
    rcases hr with rfl|rfl|rfl|rfl|rfl
    · simp only [beq_iff_eq]; exact fun h => hp1 h.symm
    · simp only [beq_iff_eq]; exact fun h => hp2 h.symm
    · simp only [beq_iff_eq]; exact fun h => hp3 h.symm
    · simp only [beq_iff_eq]; exact fun h => hp4 h.symm
    · simp only [beq_iff_eq]; exact fun h => hp5 h.symm
  refine ⟨(not_found t).1, ?_, rfl, rfl, rfl, rfl, rfl⟩
  unfold dispatch
  rw [hfind]
  rfl

/-- Witness for C6: a concrete GET to an unknown path. -/
theorem C6_witness :
    ∃ body : Json, dispatch unknownPathReq "T" = .json body 404 ∧
      body.get? "error" = some (.str "Not found") ∧
      body.get? "message" = some (.str "请求的端点不存在，请检查URL是否正确。") ∧
      body.get? "timestamp" = some (.str "T") ∧
      body.get? "suggestion" = some (.str "请访问根路径 / 查看完整的API文档") ∧
      body.get? "available_endpoints" = some (.arr
        [.obj [("path", .str "/"), ("description", .str "API文档页面")],
         .obj [("path", .str "/mirror"), ("description", .str "简洁版镜像端点")],
         .obj [("path", .str "/mirror/detail"), ("description", .str "详细版镜像端点")],
         .obj [("path", .str "/health"), ("description", .str "健康检查")],
         .obj [("path", .str "/info"), ("description", .str "API信息")]]) :=
  C6_not_found_body unknownPathReq "T" (by decide)

/-- C7: For every request to `/mirror/detail`, the statistics object holds
exactly six counts: the number of request headers, of query parameters, of
form fields, of cookies, the byte length of the raw body, and the character
length of the body decoded as text. -/
theorem C7_statistics_counts (req : Request) (t : String) :
    (mirror_detail req t).1.get? "statistics" = some (.obj
      [("headers_count", .num req.headers.length),
       ("query_params_count", .num req.queryParams.length),
       ("form_fields_count", .num req.form.length),
       ("cookies_count", .num req.cookies.length),
       ("body_size_bytes", .num req.bodyBytes.length),
       ("body_size_chars", .num req.bodyText.length)]) := by
  rcases hij : isJson req with _|_
  · simp [mirror_detail, hij, Json.get?]
  · rcases hpr : req.jsonParse with e|v <;> simp [mirror_detail, hij, hpr, Json.get?]

/-- C8: Any two GET requests to `/health` (or both to `/info`), whatever their
headers, query parameters, cookies or bodies, receive response bodies that
agree after removing the timestamp field, and identical bodies when handled
at the same wall-clock time. -/
theorem C8_health_info_request_independent (p : String)
    (hpk : p = "/health" ∨ p = "/info")
    (r1 r2 : Request) (t1 t2 : String)
    (h1p : r1.path = p) (h1m : r1.method = "GET")
    (h2p : r2.path = p) (h2m : r2.method = "GET") :
    ∃ b1 b2 : Json,
      dispatch r1 t1 = .json b1 200 ∧ dispatch r2 t2 = .json b2 200 ∧
      b1.dropField "timestamp" = b2.dropField "timestamp" ∧
      (t1 = t2 → b1 = b2) := by
  rcases hpk with rfl|rfl
  · refine ⟨(health_check t1).1, (health_check t2).1, ?_, ?_, rfl, ?_⟩
    · simp [dispatch, routes, h1p, h1m, ruleMethods, automaticOptions, runHandler,
        jsonify]
      rfl
    · simp [dispatch, routes, h2p, h2m, ruleMethods, automaticOptions, runHandler,
        jsonify]
      rfl
    · intro h; rw [h]
  · refine ⟨(api_info t1).1, (api_info t2).1, ?_, ?_, rfl, ?_⟩
    · simp [dispatch, routes, h1p, h1m, ruleMethods, automaticOptions, runHandler,
        jsonify]
      rfl
    · simp [dispatch, routes, h2p, h2m, ruleMethods, automaticOptions, runHandler,
        jsonify]
      rfl
    · intro h; rw [h]

/-- Witness for C8: a noisy and a plain GET to `/health` at different times. -/
theorem C8_witness :
    ∃ b1 b2 : Json,
      dispatch healthNoisyReq "2024-01-01T00:00:00" = .json b1 200 ∧
      dispatch healthPlainReq "2024-01-02T00:00:00" = .json b2 200 ∧
      b1.dropField "timestamp" = b2.dropField "timestamp" ∧
      ("2024-01-01T00:00:00" = "2024-01-02T00:00:00" → b1 = b2) :=
  C8_health_info_request_independent "/health" (Or.inl rfl)
    healthNoisyReq healthPlainReq "2024-01-01T00:00:00" "2024-01-02T00:00:00"
    rfl rfl rfl rfl

/-- C9: In the `mirror_detail` response, json_data is the empty object both
when the silent JSON parse yields nothing (body absent, unparseable, or the
content type is not JSON) and when the body parses to a falsy JSON value; the
parsed falsy value itself is never exposed. -/
theorem C9_json_data_falsy_empty (req : Request) (t : String)
    (h : getJsonSilent req = none ∨
         ∃ v : Json, getJsonSilent req = some v ∧ v.truthy = false) :
    (mirror_detail req t).1.get? "json_data" = some (.obj []) := by
  rcases hij : isJson req with _|_
  · rcases hpr : req.jsonParse with e|v <;>
      simp [mirror_detail, hij, hpr, Json.get?, getJsonSilent]
  · rcases hpr : req.jsonParse with e|v
    · simp [mirror_detail, hij, hpr, Json.get?, getJsonSilent]
    · rcases h with h | ⟨w, hw, htr⟩
      · simp only [getJsonSilent, hij, hpr, if_true] at h
        simp at h
      · simp only [getJsonSilent, hij, hpr, if_true] at hw
        simp only [Option.some.injEq] at hw
        subst hw
        simp [mirror_detail, hij, hpr, Json.get?, getJsonSilent, htr]

/-- Witness for C9: a POST to `/mirror/detail` whose body parses to the falsy
value `[]` still yields an empty json_data object. -/
theorem C9_witness :
    (mirror_detail falsyJsonDetailReq "T").1.get? "json_data" = some (.obj []) :=
  C9_json_data_falsy_empty falsyJsonDetailReq "T" (Or.inr ⟨Json.arr [], by rfl, by rfl⟩)

/-- C10: The `mirror_detail` response never carries both json_parsed and
json_error; json_parsed appears only when the JSON content-type body parses
successfully, json_error only when parsing raises, and neither appears for a
non-JSON content type. -/
theorem C10_json_parsed_error_exclusive (req : Request) (t : String) :
    ((mirror_detail req t).1.get? "json_parsed" = none ∨
     (mirror_detail req t).1.get? "json_error" = none) ∧
    (isJson req = false →
      (mirror_detail req t).1.get? "json_parsed" = none ∧
      (mirror_detail req t).1.get? "json_error" = none) ∧
    (∀ v : Json, (mirror_detail req t).1.get? "json_parsed" = some v →
      isJson req = true ∧ req.jsonParse = Except.ok v) ∧
    (∀ j : Json, (mirror_detail req t).1.get? "json_error" = some j →
      isJson req = true ∧ ∃ e : String, req.jsonParse = Except.error e ∧
        j = .str ("Invalid JSON data: " ++ e)) := by
  rcases hij : isJson req with _|_
  · rcases hpr : req.jsonParse with e|v <;>
      simp [mirror_detail, hij, hpr, Json.get?, getJsonSilent]
  · rcases hpr : req.jsonParse with e|v <;>
      simp [mirror_detail, hij, hpr, Json.get?, getJsonSilent]

/-- Witness for C10: at a concrete request with an unparseable JSON body, the
two fields are not both present. -/
theorem C10_witness :
    (mirror_detail badJsonDetailReq "T").1.get? "json_parsed" = none ∨
    (mirror_detail badJsonDetailReq "T").1.get? "json_error" = none :=
  (C10_json_parsed_error_exclusive badJsonDetailReq "T").1

end MirrorApi
